import Mathlib

/-!
Verification development for the `isimip.py` data-acquisition script.

The script is embedded shallowly: the pure parts (catalog resolution, task
generation, name/url construction, validation) are translated directly as Lean
functions; the effectful parts (directory creation, logging, opening a remote
dataset, writing a file) are modelled as traces of `Effect` values produced by
total functions over an explicit environment (`Env` for the downloader,
`CombineEnv` for the combiner) which records which local files/directories
already exist and which remote operations would fail.  The thread pool of
`download_isimip_data` maps independent tasks, so its effects are modelled as
the sequential concatenation of the per-task traces (claims below are about
presence/absence of effects, which is insensitive to interleaving).

Python exceptions that escape a function are modelled in a `... × Option PyError`
result: the effect trace performed before the exception, paired with the
exception (or `none` for a normal return).  Note that `download_isimip_data`
as written references the undefined name `conda_env` after the download phase
(the function has no such parameter and the module no such global), so on every
input that passes validation it raises `NameError`; the embedding reproduces
this faithfully.
-/

set_option maxRecDepth 100000

namespace Isimip

/-- Catalog of valid models, paired with the lowercase url token
(`valid_models` dict in `download_isimip_data`). -/
def validModels : List (String × String) :=
  [("GFDL-ESM4", "gfdl-esm4"),
   ("MPI-ESM1-2-HR", "mpi-esm1-2-hr"),
   ("IPSL-CM6A-LR", "ipsl-cm6a-lr"),
   ("MRI-ESM2-0", "mri-esm2-0"),
   ("UKESM1-0-LL", "ukesm1-0-ll")]

/-- The display names of the catalog (`list(valid_models.keys())`). -/
def validModelNames : List String := validModels.map (fun p => p.1)

/-- The fixed set of 8 valid climate variables. -/
def validVariables : List String :=
  ["hurs", "huss", "pr", "prsn", "ps", "tas", "tasmax", "tasmin"]

/-- The fixed set of 3 valid scenarios. -/
def validScenarios : List String := ["historical", "ssp126", "ssp585"]

/-- Python repr of a string: the value wrapped in single quotes. -/
def pyQuote (s : String) : String := "\x27" ++ s ++ "\x27"

/-- Python repr of a list of strings, as it appears in the error messages. -/
def pyListRepr (l : List String) : String :=
  "[" ++ String.intercalate (", ") (l.map pyQuote) ++ "]"

/-- Python `range(start, stop, step)` for positive `step`. -/
def pyRange (start stop step : Nat) : List Nat :=
  (List.range ((stop - start + (step - 1)) / step)).map (fun i => start + step * i)

/-- The decade start years generated for a scenario (lines 253-256 of the
source): `range(1971, 2011, 10)` for historical, `range(2021, 2091, 10)`
otherwise. -/
def decadeStarts (scen : String) : List Nat :=
  if scen = "historical" then pyRange 1971 2011 10 else pyRange 2021 2091 10

/-- One entry of the `tasks` list built by `download_isimip_data`
(the tuple `(model, var, scen, year)`). -/
structure DownloadTask where
  model : String
  var : String
  scen : String
  year : Nat
deriving DecidableEq, Repr

/-- The task list: the nested loops over models, scenarios, variables and
decade starts (lines 248-259). -/
def downloadTasks (models scenarios vars : List String) : List DownloadTask :=
  models.flatMap (fun model =>
    scenarios.flatMap (fun scen =>
      vars.flatMap (fun var =>
        (decadeStarts scen).map (fun year => DownloadTask.mk model var scen year))))

/-- Model resolution in `download_isimip_data` (line 180): a list containing
the string "all" anywhere is replaced by the full catalog. -/
def resolveModelsDownload (modelChoices : List String) : List String :=
  if "all" ∈ modelChoices then validModelNames else modelChoices

/-- Scenario resolution (lines 182-185): the single string "all" expands to
the three valid scenarios, any other string becomes a singleton list. -/
def resolveScenarios (scenario : String) : List String :=
  if scenario = "all" then validScenarios else [scenario]

/-- Validation loop: returns the error message for the first element not in
`allowed`, or `none` when every element is allowed (lines 188-198). -/
def validateAgainst (mkMsg : String → String) (allowed : List String) :
    List String → Option String
  | [] => none
  | x :: xs => if x ∈ allowed then validateAgainst mkMsg allowed xs else some (mkMsg x)

/-- The message of the ValueError raised for an invalid model (line 190). -/
def invalidModelMsg (m : String) : String :=
  "Invalid model: " ++ m ++ ". Valid models: " ++ pyListRepr validModelNames

/-- The message of the ValueError raised for an invalid variable (line 194). -/
def invalidVariableMsg (v : String) : String :=
  "Invalid variable: " ++ v ++ ". Valid variables: " ++ pyListRepr validVariables

/-- The message of the ValueError raised for an invalid scenario (line 198). -/
def invalidScenarioMsg (s : String) : String :=
  "Invalid scenario: " ++ s ++ ". Valid scenarios: " ++ pyListRepr validScenarios

/-- Validation of the resolved model list. -/
def validateModels : List String → Option String :=
  validateAgainst invalidModelMsg validModelNames

/-- Validation of the variable list. -/
def validateVariables : List String → Option String :=
  validateAgainst invalidVariableMsg validVariables

/-- Validation of the resolved scenario list. -/
def validateScenarios : List String → Option String :=
  validateAgainst invalidScenarioMsg validScenarios

/-- The fixed base URL (line 200). -/
def baseUrl : String :=
  "https://files.isimip.org/ISIMIP3b/InputData/climate/atmosphere/bias-adjusted/global/daily"

/-- The lowercase url token of a model (`valid_models[model]`); empty for a
name outside the catalog (the dict lookup is only reached for validated
models). -/
def modelLower (model : String) : String :=
  (List.lookup model validModels).getD ("")

/-- The experiment id (line 205): "r1i1p1f2" exactly for "UKESM1-0-LL",
"r1i1p1f1" otherwise. -/
def experimentOf (model : String) : String :=
  if model = "UKESM1-0-LL" then "r1i1p1f2" else "r1i1p1f1"

/-- The end year of a decade tile (lines 207-213): `min(year+9, 2014)` for
the historical scenario, `year+9` otherwise. -/
def endYear (scen : String) (year : Nat) : Nat :=
  if scen = "historical" then min (year + 9) 2014 else year + 9

/-- The per-model/per-scenario output directory (line 216). -/
def outDirOf (outputDir model scen : String) : String :=
  outputDir ++ "/" ++ model ++ "/" ++ scen

/-- The canonical remote file name without extension (line 220). -/
def fileNameOf (model var scen : String) (year : Nat) : String :=
  modelLower model ++ "_" ++ experimentOf model ++ "_w5e5_" ++ scen ++ "_" ++ var
    ++ "_global_daily_" ++ toString year ++ "_" ++ toString (endYear scen year)

/-- The remote URL (line 221): the base path joined with scenario, model and
the file name plus ".nc". -/
def urlOf (model var scen : String) (year : Nat) : String :=
  baseUrl ++ "/" ++ scen ++ "/" ++ model ++ "/" ++ fileNameOf model var scen year ++ ".nc"

/-- The local target path (line 222): directory, file name and "_cropped.nc". -/
def targetOf (outputDir model var scen : String) (year : Nat) : String :=
  outDirOf outputDir model scen ++ "/" ++ fileNameOf model var scen year ++ "_cropped.nc"

/-- Observable effects of one downloader unit.  `fetch` stands for opening the
remote dataset (`xr.open_dataset(url)`), the only network operation;
`writeFile` for `ds.to_netcdf(output_file)`.  The optional spatial subsetting
between the two is a pure transformation of the in-memory dataset and leaves
no separate trace. -/
inductive Effect
  | mkdirP (path : String)
  | logInfo (msg : String)
  | logError (msg : String)
  | fetch (url : String)
  | writeFile (path : String)
deriving DecidableEq, Repr

/-- Environment of the downloader: which local paths already exist, and for
which URLs the body of the try block (open / subset / write) raises.  The
`str(e)` suffix of the logged error message is elided. -/
structure Env where
  existingFiles : List String
  failUrls : List String
deriving DecidableEq, Repr

/-- The inner `process_file` (lines 202-246) as a trace of effects.  The early
return `if end_year < year` appears only in the historical branch of the
source, but for the other scenarios `end_year = year + 9 ≥ year`, so guarding
on `endYear scen year < year` is equivalent.  `bbox` selects whether the
dataset is cropped before the write; it does not change the trace shape. -/
def processFile (env : Env) (outputDir : String) (bbox : Bool)
    (model var scen : String) (year : Nat) : List Effect :=
  if endYear scen year < year then []
  else
    let url := urlOf model var scen year
    let target := targetOf outputDir model var scen year
    Effect.mkdirP (outDirOf outputDir model scen) ::
    (if target ∈ env.existingFiles then
      [Effect.logInfo ("File already exists: " ++ target)]
    else if url ∈ env.failUrls then
      [Effect.logInfo ("Downloading " ++ url), Effect.fetch url,
       Effect.logError ("Error processing " ++ url)]
    else
      [Effect.logInfo ("Downloading " ++ url), Effect.fetch url,
       Effect.writeFile target,
       Effect.logInfo ("Successfully processed: " ++ target)])

/-- Exceptions that can escape `download_isimip_data`: a ValueError from
validation, or the NameError raised at line 266 by the reference to the
undefined name `conda_env`. -/
inductive PyError
  | validation (msg : String)
  | nameError (n : String)
deriving DecidableEq, Repr

/-- The orchestrator `download_isimip_data` (lines 135-273): resolves the
selectors, validates models, then variables, then scenarios (raising the first
failure with an empty effect trace), builds the task cross-product, runs every
unit, and then evaluates `if conda_env:` — a NameError, since `conda_env` is
defined nowhere — so the combine phase is never reached and the function never
returns normally after validation succeeds. -/
def downloadIsimipData (env : Env) (modelChoices vars : List String)
    (scenario : String) (bbox : Bool) (outputDir : String) :
    List Effect × Option PyError :=
  let models := resolveModelsDownload modelChoices
  let scenarios := resolveScenarios scenario
  match validateModels models with
  | some msg => ([], some (PyError.validation msg))
  | none =>
    match validateVariables vars with
    | some msg => ([], some (PyError.validation msg))
    | none =>
      match validateScenarios scenarios with
      | some msg => ([], some (PyError.validation msg))
      | none =>
        let tasks := downloadTasks models scenarios vars
        (tasks.flatMap (fun t => processFile env outputDir bbox t.model t.var t.scen t.year),
         some (PyError.nameError ("conda_env")))

/-- Insertion of a time value into a sorted list of times. -/
def insertTime (x : Int) : List Int → List Int
  | [] => [x]
  | y :: ys => if x ≤ y then x :: y :: ys else y :: insertTime x ys

/-- Ascending sort of a time axis: the model of `ds.sortby('time')`, the
preprocess step applied to each input file. -/
def sortTimes : List Int → List Int
  | [] => []
  | x :: xs => insertTime x (sortTimes xs)

/-- Boolean monotonicity (non-decreasing) of a time axis. -/
def isMonotone : List Int → Bool
  | [] => true
  | [_] => true
  | x :: y :: rest => decide (x ≤ y) && isMonotone (y :: rest)

/-- Insertion of a dataset into a list of datasets ordered by first time. -/
def insertByHead (d : List Int) : List (List Int) → List (List Int)
  | [] => [d]
  | e :: es => if d.headD 0 ≤ e.headD 0 then d :: e :: es else e :: insertByHead d es

/-- Ordering of datasets by their first time value. -/
def sortByHead : List (List Int) → List (List Int)
  | [] => []
  | d :: ds => insertByHead d (sortByHead ds)

/-- Model of xarray `combine='by_coords'` over one-dimensional time axes: the
datasets are ordered by their first coordinate value and concatenated, and
xarray raises ValueError ("does not have monotonic global indexes") unless the
resulting global index is monotonic — modelled as `none`. -/
def combineByCoords (dss : List (List Int)) : Option (List Int) :=
  let result := (sortByHead dss).flatten
  if isMonotone result then some result else none

/-- Model of the `xr.open_mfdataset(..., combine='by_coords',
preprocess=lambda ds: ds.sortby('time'))` call (lines 113-118): each file's
time axis is sorted first, then the files are combined by coordinates. -/
def openMfdataset (files : List (List Int)) : Option (List Int) :=
  combineByCoords (files.map sortTimes)

/-- A Python `Union[str, List[str]]` argument. -/
inductive StrOrList
  | str (s : String)
  | list (l : List String)
deriving DecidableEq, Repr

/-- Model resolution in `combine_netcdf_files` (line 85): only the exact
string "all" expands to the catalog; any other string becomes a singleton and
a list is taken as is (no "all" handling inside a list here). -/
def resolveModelsCombine : StrOrList → List String
  | StrOrList.str s => if s = "all" then validModelNames else [s]
  | StrOrList.list l => l

/-- A local NetCDF file: its directory, its file name, and its time axis. -/
structure NcFile where
  dir : String
  name : String
  times : List Int
deriving DecidableEq, Repr

/-- Environment of the combiner: which directories exist, which files exist
(with their time contents), and which output paths fail to write. -/
structure CombineEnv where
  dirs : List String
  files : List NcFile
  writeFails : List String
deriving DecidableEq, Repr

/-- Observable effects of the combiner. `writeCombined` records the path and
the time axis of the dataset written by `ds.to_netcdf(output_file)`. -/
inductive CEffect
  | mkdirP (path : String)
  | logWarning (msg : String)
  | logInfo (msg : String)
  | logError (msg : String)
  | writeCombined (path : String) (times : List Int)
deriving DecidableEq, Repr

/-- Suffix test on strings, via their character lists. -/
def strEndsWith (s suffix : String) : Bool := List.isSuffixOf suffix.data s.data

/-- The files found by `source_dir.glob("*_cropped.nc")` (line 104): the files
of the directory whose names end in the fixed suffix. -/
def globCropped (env : CombineEnv) (sourceDir : String) : List NcFile :=
  env.files.filter (fun f => f.dir = sourceDir ∧ strEndsWith f.name ("_cropped.nc"))

/-- The body of the per-(model, scenario) loop of `combine_netcdf_files`
(lines 97-133): skip with a warning when the source directory does not exist
or holds no cropped files; otherwise open the files as one dataset and write
it, catching and logging any failure (non-monotonic combine or write error). -/
def combineOne (env : CombineEnv) (outputDir model scen : String) : List CEffect :=
  let sourceDir := outDirOf outputDir model scen
  if sourceDir ∈ env.dirs then
    let ncFiles := globCropped env sourceDir
    if ncFiles = [] then
      [CEffect.logWarning ("No NetCDF files found in " ++ sourceDir)]
    else
      CEffect.logInfo ("Combining files for " ++ model ++ " " ++ scen ++ "...") ::
      (match openMfdataset (ncFiles.map (fun f => f.times)) with
       | none =>
         [CEffect.logError ("Failed to combine files for " ++ model ++ " " ++ scen)]
       | some ts =>
         let outputFile := outputDir ++ "/combined/" ++ scen ++ "/" ++ model ++ "_combined.nc"
         if outputFile ∈ env.writeFails then
           [CEffect.logError ("Failed to combine files for " ++ model ++ " " ++ scen)]
         else
           [CEffect.writeCombined outputFile ts,
            CEffect.logInfo ("Successfully created combined file: " ++ outputFile)])
  else
    [CEffect.logWarning ("Directory " ++ sourceDir ++ " does not exist, skipping...")]

/-- The standalone combine entry point `combine_netcdf_files` (lines 65-133):
resolves the selectors (performing NO validation — `valid_models` and
`valid_scenarios` are consulted only to expand "all"), unconditionally creates
the combined directory and one subdirectory per scenario, and processes every
(scenario, model) pair best-effort.  No exception ever escapes, so the error
component is always `none`. -/
def combineNetcdfFiles (env : CombineEnv) (modelChoices : StrOrList)
    (scenario outputDir : String) : List CEffect × Option PyError :=
  let models := resolveModelsCombine modelChoices
  let scenarios := resolveScenarios scenario
  (CEffect.mkdirP (outputDir ++ "/combined") ::
   scenarios.flatMap (fun scen =>
     CEffect.mkdirP (outputDir ++ "/combined/" ++ scen) ::
     models.flatMap (fun model => combineOne env outputDir model scen)),
   none)

/-- An empty environment: no local files, no failing URLs. -/
def env0 : Env := Env.mk [] []

/-- An empty combiner environment. -/
def cenv0 : CombineEnv := CombineEnv.mk [] [] []

/-- Soundness of the validation loop: it returns `none` exactly when every
element is allowed. -/
theorem validateAgainst_eq_none (mkMsg : String → String) (allowed : List String) :
    ∀ l : List String, validateAgainst mkMsg allowed l = none ↔ ∀ x ∈ l, x ∈ allowed := by
  intro l
  induction l with
  | nil => simp [validateAgainst]
  | cons x xs ih =>
    by_cases hx : x ∈ allowed
    · simp [validateAgainst, hx, ih]
    · simp [validateAgainst, hx]

/-- Completeness of the validation loop: a returned message belongs to some
element of the list that is not allowed. -/
theorem validateAgainst_eq_some (mkMsg : String → String) (allowed : List String) :
    ∀ (l : List String) (msg : String), validateAgainst mkMsg allowed l = some msg →
      ∃ x, x ∈ l ∧ x ∉ allowed ∧ msg = mkMsg x := by
  intro l
  induction l with
  | nil => intro msg h; simp [validateAgainst] at h
  | cons x xs ih =>
    intro msg h
    by_cases hx : x ∈ allowed
    · simp only [validateAgainst, if_pos hx] at h
      obtain ⟨y, hy, hny, hm⟩ := ih msg h
      exact ⟨y, List.mem_cons_of_mem _ hy, hny, hm⟩
    · simp only [validateAgainst, if_neg hx, Option.some.injEq] at h
      exact ⟨x, List.mem_cons_self x xs, hx, h.symm⟩

/-- C1: the claim asserts the historical decade starts are
1971, 1981, 1991, 2001, 2011.  Evaluating the task generator shows the code
(`range(1971, 2011, 10)`) produces only 1971, 1981, 1991, 2001 — the start
2011 is missing, although the end-year cap `min(year+9, 2014)` in the fetcher
differs from `year+9` only at a 2011 start.  The future decade starts and the
expansion of the scenario selector "all" are as the claim states. -/
theorem C1_historical_decade_starts_bug :
    (downloadTasks ["GFDL-ESM4"] (resolveScenarios ("historical")) ["tas"]).map
        (fun t => t.year) = [1971, 1981, 1991, 2001] ∧
    2011 ∉ decadeStarts ("historical") ∧
    decadeStarts ("ssp126") = [2021, 2031, 2041, 2051, 2061, 2071, 2081] ∧
    decadeStarts ("ssp585") = [2021, 2031, 2041, 2051, 2061, 2071, 2081] ∧
    resolveScenarios ("all") = ["historical", "ssp126", "ssp585"] := by decide

/-- C2: the claim asserts `download_isimip_data` returns normally after
best-effort completion.  Evaluating the orchestrator on a valid input shows it
instead raises `NameError` for the undefined name `conda_env` (line 266) after
the download phase, on every input that passes validation; there is also no
parameter requesting an aggregation backend. -/
theorem C2_name_error_after_download_phase :
    (downloadIsimipData env0 ["GFDL-ESM4"] ["tas"] ("historical") false ("out")).2
      = some (PyError.nameError ("conda_env")) := by decide

/-- C3: whenever the resolved model list holds a name outside the fixed 5, or
a variable is outside the fixed 8, or the resolved scenario list holds a name
outside the fixed 3, the orchestrator raises a ValueError whose message names
the invalid value and the allowed set, with an empty effect trace: no network
access, no directory or file creation, the filesystem unchanged. -/
theorem C3_validation_precedes_all_effects (env : Env) (modelChoices vars : List String)
    (scenario : String) (bbox : Bool) (outputDir : String)
    (h : (∃ m ∈ resolveModelsDownload modelChoices, m ∉ validModelNames) ∨
         (∃ v ∈ vars, v ∉ validVariables) ∨
         (∃ s ∈ resolveScenarios scenario, s ∉ validScenarios)) :
    ∃ msg, downloadIsimipData env modelChoices vars scenario bbox outputDir
        = ([], some (PyError.validation msg)) ∧
      ((∃ m, m ∉ validModelNames ∧ msg = invalidModelMsg m) ∨
       (∃ v, v ∉ validVariables ∧ msg = invalidVariableMsg v) ∨
       (∃ s, s ∉ validScenarios ∧ msg = invalidScenarioMsg s)) := by
  cases hm : validateModels (resolveModelsDownload modelChoices) with
  | some msg =>
    obtain ⟨x, _, hnx, hmsg⟩ := validateAgainst_eq_some _ _ _ _ hm
    exact ⟨msg, by simp [downloadIsimipData, hm], Or.inl ⟨x, hnx, hmsg⟩⟩
  | none =>
    cases hv : validateVariables vars with
    | some msg =>
      obtain ⟨x, _, hnx, hmsg⟩ := validateAgainst_eq_some _ _ _ _ hv
      exact ⟨msg, by simp [downloadIsimipData, hm, hv], Or.inr (Or.inl ⟨x, hnx, hmsg⟩)⟩
    | none =>
      cases hs : validateScenarios (resolveScenarios scenario) with
      | some msg =>
        obtain ⟨x, _, hnx, hmsg⟩ := validateAgainst_eq_some _ _ _ _ hs
        exact ⟨msg, by simp [downloadIsimipData, hm, hv, hs],
               Or.inr (Or.inr ⟨x, hnx, hmsg⟩)⟩
      | none =>
        exfalso
        rcases h with ⟨m, hmem, hnm⟩ | ⟨v, hmem, hnv⟩ | ⟨s, hmem, hns⟩
        · exact hnm ((validateAgainst_eq_none _ _ _).1 hm m hmem)
        · exact hnv ((validateAgainst_eq_none _ _ _).1 hv v hmem)
        · exact hns ((validateAgainst_eq_none _ _ _).1 hs s hmem)

/-- Witness for C3 at the concrete invalid model "XYZ". -/
theorem C3_validation_precedes_all_effects_witness :
    ∃ msg, downloadIsimipData env0 ["XYZ"] ["tas"] ("historical") false ("out")
        = ([], some (PyError.validation msg)) ∧
      ((∃ m, m ∉ validModelNames ∧ msg = invalidModelMsg m) ∨
       (∃ v, v ∉ validVariables ∧ msg = invalidVariableMsg v) ∨
       (∃ s, s ∉ validScenarios ∧ msg = invalidScenarioMsg s)) :=
  C3_validation_precedes_all_effects env0 ["XYZ"] ["tas"] ("historical") false ("out")
    (Or.inl ⟨"XYZ", by decide, by decide⟩)


/-- A unit whose local target already exists performs no network fetch. -/
theorem fetch_not_mem_processFile_of_existing (env : Env) (outputDir : String) (bbox : Bool)
    (model var scen : String) (year : Nat) (u : String)
    (hex : targetOf outputDir model var scen year ∈ env.existingFiles) :
    Effect.fetch u ∉ processFile env outputDir bbox model var scen year := by
  unfold processFile
  by_cases hg : endYear scen year < year
  · simp [hg]
  · simp [hg, hex]

/-- C4: a unit whose local target file already exists logs and returns: its
whole trace is the directory-ensure and the log line — no fetch, no write, the
target untouched; consequently a run in which every task of the request
already has its target present issues zero fetch effects. -/
theorem C4_existing_target_is_noop (env : Env) (outputDir : String) (bbox : Bool)
    (model var scen : String) (year : Nat)
    (hguard : ¬ endYear scen year < year)
    (hex : targetOf outputDir model var scen year ∈ env.existingFiles) :
    processFile env outputDir bbox model var scen year =
      [Effect.mkdirP (outDirOf outputDir model scen),
       Effect.logInfo ("File already exists: " ++ targetOf outputDir model var scen year)] ∧
    ∀ (mc vs : List String) (scenario u : String),
      (∀ t ∈ downloadTasks (resolveModelsDownload mc) (resolveScenarios scenario) vs,
          targetOf outputDir t.model t.var t.scen t.year ∈ env.existingFiles) →
      Effect.fetch u ∉ (downloadIsimipData env mc vs scenario bbox outputDir).1 := by
  constructor
  · unfold processFile
    simp [hguard, hex]
  · intro mc vs scenario u hall hmem
    cases hm : validateModels (resolveModelsDownload mc) with
    | some msg => simp [downloadIsimipData, hm] at hmem
    | none =>
      cases hv : validateVariables vs with
      | some msg => simp [downloadIsimipData, hm, hv] at hmem
      | none =>
        cases hs : validateScenarios (resolveScenarios scenario) with
        | some msg => simp [downloadIsimipData, hm, hv, hs] at hmem
        | none =>
          simp only [downloadIsimipData, hm, hv, hs, List.mem_flatMap] at hmem
          obtain ⟨t, ht, hft⟩ := hmem
          exact fetch_not_mem_processFile_of_existing env outputDir bbox
            t.model t.var t.scen t.year u (hall t ht) hft

/-- Environment whose local tree already holds every target of the
single-model historical request used in the witnesses. -/
def envFull : Env :=
  Env.mk ((downloadTasks ["GFDL-ESM4"] ["historical"] ["tas"]).map
    (fun t => targetOf ("out") t.model t.var t.scen t.year)) []

/-- Witness for C4 on a fully populated output tree. -/
theorem C4_existing_target_is_noop_witness :
    processFile envFull ("out") false ("GFDL-ESM4") ("tas") ("historical") 1971 =
      [Effect.mkdirP (outDirOf ("out") ("GFDL-ESM4") ("historical")),
       Effect.logInfo ("File already exists: "
         ++ targetOf ("out") ("GFDL-ESM4") ("tas") ("historical") 1971)] ∧
    Effect.fetch (urlOf ("GFDL-ESM4") ("tas") ("historical") 1971)
      ∉ (downloadIsimipData envFull ["GFDL-ESM4"] ["tas"] ("historical") false ("out")).1 :=
  ⟨(C4_existing_target_is_noop envFull ("out") false ("GFDL-ESM4") ("tas") ("historical") 1971
      (by decide) (by decide)).1,
   (C4_existing_target_is_noop envFull ("out") false ("GFDL-ESM4") ("tas") ("historical") 1971
      (by decide) (by decide)).2 ["GFDL-ESM4"] ["tas"] ("historical")
      (urlOf ("GFDL-ESM4") ("tas") ("historical") 1971) (by decide)⟩

/-- C5: the end year is `min(start+9, 2014)` for historical and `start+9`
otherwise, and a unit with `end_year < start_year` — possible only for a
historical start — produces the empty trace: no directory, no network, no log,
so it is neither executed nor reported as a failure. -/
theorem C5_end_year_rule_and_drop (env : Env) (outputDir : String) (bbox : Bool)
    (model var scen : String) (year : Nat) :
    (scen = "historical" → endYear scen year = min (year + 9) 2014) ∧
    (scen ≠ "historical" → endYear scen year = year + 9) ∧
    (endYear scen year < year →
      scen = "historical" ∧ processFile env outputDir bbox model var scen year = []) := by
  refine ⟨fun h => by simp [endYear, h], fun h => by simp [endYear, h], fun h => ?_⟩
  by_cases hs : scen = "historical"
  · exact ⟨hs, by unfold processFile; simp [h]⟩
  · exfalso
    simp [endYear, hs] at h

/-- Witness for C5 at the misaligned historical start 2021. -/
theorem C5_end_year_rule_and_drop_witness :
    processFile env0 ("out") false ("GFDL-ESM4") ("tas") ("historical") 2021 = [] :=
  ((C5_end_year_rule_and_drop env0 ("out") false ("GFDL-ESM4") ("tas")
      ("historical") 2021).2.2 (by decide)).2

/-- The exception component of the orchestrator result does not depend on the
environment: no fetch failure (and no pre-existing file) changes what the
caller sees. -/
theorem downloadIsimipData_snd_indep (env1 env2 : Env) (mc vs : List String)
    (scenario : String) (bbox : Bool) (outputDir : String) :
    (downloadIsimipData env1 mc vs scenario bbox outputDir).2
      = (downloadIsimipData env2 mc vs scenario bbox outputDir).2 := by
  cases hm : validateModels (resolveModelsDownload mc) with
  | some msg => simp [downloadIsimipData, hm]
  | none =>
    cases hv : validateVariables vs with
    | some msg => simp [downloadIsimipData, hm, hv]
    | none =>
      cases hs : validateScenarios (resolveScenarios scenario) with
      | some msg => simp [downloadIsimipData, hm, hv, hs]
      | none => simp [downloadIsimipData, hm, hv, hs]

/-- C6: a unit whose remote open / subset / write fails logs the error
together with the offending URL and returns normally — its trace ends with the
error log and the exception is swallowed: the exception component of the
orchestrator result is the same as in an environment where nothing fails. -/
theorem C6_unit_failures_swallowed (env : Env) (outputDir : String) (bbox : Bool)
    (model var scen : String) (year : Nat)
    (hguard : ¬ endYear scen year < year)
    (hnew : targetOf outputDir model var scen year ∉ env.existingFiles)
    (hfail : urlOf model var scen year ∈ env.failUrls) :
    processFile env outputDir bbox model var scen year =
      [Effect.mkdirP (outDirOf outputDir model scen),
       Effect.logInfo ("Downloading " ++ urlOf model var scen year),
       Effect.fetch (urlOf model var scen year),
       Effect.logError ("Error processing " ++ urlOf model var scen year)] ∧
    ∀ (env2 : Env) (mc vs : List String) (scenario : String) (bbox2 : Bool)
      (outputDir2 : String),
      (downloadIsimipData env mc vs scenario bbox2 outputDir2).2
        = (downloadIsimipData env2 mc vs scenario bbox2 outputDir2).2 := by
  constructor
  · unfold processFile
    simp [hguard, hnew, hfail]
  · intro env2 mc vs scenario bbox2 outputDir2
    exact downloadIsimipData_snd_indep env env2 mc vs scenario bbox2 outputDir2

/-- Environment in which the first historical GFDL fetch fails. -/
def envFail : Env := Env.mk [] [urlOf ("GFDL-ESM4") ("tas") ("historical") 1971]

/-- Witness for C6 on a failing fetch. -/
theorem C6_unit_failures_swallowed_witness :
    processFile envFail ("out") false ("GFDL-ESM4") ("tas") ("historical") 1971 =
      [Effect.mkdirP (outDirOf ("out") ("GFDL-ESM4") ("historical")),
       Effect.logInfo ("Downloading " ++ urlOf ("GFDL-ESM4") ("tas") ("historical") 1971),
       Effect.fetch (urlOf ("GFDL-ESM4") ("tas") ("historical") 1971),
       Effect.logError ("Error processing "
         ++ urlOf ("GFDL-ESM4") ("tas") ("historical") 1971)] ∧
    (downloadIsimipData envFail ["GFDL-ESM4"] ["tas"] ("historical") false ("out")).2
      = (downloadIsimipData env0 ["GFDL-ESM4"] ["tas"] ("historical") false ("out")).2 :=
  ⟨(C6_unit_failures_swallowed envFail ("out") false ("GFDL-ESM4") ("tas") ("historical") 1971
      (by decide) (by decide) (by decide)).1,
   (C6_unit_failures_swallowed envFail ("out") false ("GFDL-ESM4") ("tas") ("historical") 1971
      (by decide) (by decide) (by decide)).2 env0 ["GFDL-ESM4"] ["tas"] ("historical")
      false ("out")⟩

/-- C7: every fetch effect of a unit addresses exactly the URL obtained by
joining the fixed base path with scenario, model, and the canonical file name
built from the lowercase catalog token, the experiment id ("r1i1p1f2" exactly
for "UKESM1-0-LL", "r1i1p1f1" otherwise), the scenario, the variable and the
start/end years, plus ".nc". -/
theorem C7_remote_name_formula (env : Env) (outputDir : String) (bbox : Bool)
    (model var scen : String) (year : Nat) (u : String)
    (h : Effect.fetch u ∈ processFile env outputDir bbox model var scen year) :
    u = baseUrl ++ "/" ++ scen ++ "/" ++ model ++ "/"
        ++ (modelLower model ++ "_"
            ++ (if model = "UKESM1-0-LL" then "r1i1p1f2" else "r1i1p1f1")
            ++ "_w5e5_" ++ scen ++ "_" ++ var ++ "_global_daily_"
            ++ toString year ++ "_" ++ toString (endYear scen year))
        ++ ".nc" := by
  unfold processFile at h
  by_cases hg : endYear scen year < year
  · simp [hg] at h
  · simp only [if_neg hg, List.mem_cons] at h
    by_cases hex : targetOf outputDir model var scen year ∈ env.existingFiles
    · simp [hex] at h
    · by_cases hf : urlOf model var scen year ∈ env.failUrls
      · simp [hex, hf] at h
        subst h
        rfl
      · simp [hex, hf] at h
        subst h
        rfl

/-- Witness for C7 on the executed UKESM1-0-LL / ssp126 / tas / 2021 unit. -/
theorem C7_remote_name_formula_witness :
    "https://files.isimip.org/ISIMIP3b/InputData/climate/atmosphere/bias-adjusted/global/daily/ssp126/UKESM1-0-LL/ukesm1-0-ll_r1i1p1f2_w5e5_ssp126_tas_global_daily_2021_2030.nc"
      = baseUrl ++ "/" ++ ("ssp126") ++ "/" ++ ("UKESM1-0-LL") ++ "/"
        ++ (modelLower ("UKESM1-0-LL") ++ "_"
            ++ (if ("UKESM1-0-LL" : String) = "UKESM1-0-LL" then "r1i1p1f2" else "r1i1p1f1")
            ++ "_w5e5_" ++ ("ssp126") ++ "_" ++ ("tas") ++ "_global_daily_"
            ++ toString 2021 ++ "_" ++ toString (endYear ("ssp126") 2021))
        ++ ".nc" :=
  C7_remote_name_formula env0 ("out") false ("UKESM1-0-LL") ("tas") ("ssp126") 2021 _
    (by decide)


/-- A successful combine-by-coords open always yields a monotonic time axis
(xarray raises otherwise). -/
theorem openMfdataset_monotone (files : List (List Int)) (ts : List Int)
    (h : openMfdataset files = some ts) : isMonotone ts = true := by
  simp only [openMfdataset, combineByCoords] at h
  split at h
  · injection h with h2
    subst h2
    assumption
  · exact Option.noConfusion h

/-- Any combined dataset written by the per-(model, scenario) body has a
monotonic time axis. -/
theorem writeCombined_mem_combineOne_monotone (env : CombineEnv)
    (outputDir model scen p : String) (ts : List Int)
    (h : CEffect.writeCombined p ts ∈ combineOne env outputDir model scen) :
    isMonotone ts = true := by
  simp only [combineOne] at h
  split at h
  · split at h
    · simp at h
    · simp only [List.mem_cons] at h
      rcases h with h | h
      · exact CEffect.noConfusion h
      · split at h
        · simp at h
        · next ts2 heq =>
          split at h
          · simp at h
          · simp only [List.mem_cons, List.not_mem_nil, or_false] at h
            rcases h with h | h
            · injection h with h1 h2
              subst h2
              exact openMfdataset_monotone _ _ heq
            · exact CEffect.noConfusion h
  · simp at h

/-- C8: each input file time axis is sorted before the combine
(`preprocess` applying a time sort, feeding `combine` by coordinates), and
every combined dataset the Combiner writes has a monotonic (non-decreasing)
time axis — also for unsorted input files, as the witness shows. -/
theorem C8_combined_time_axis_monotone (env : CombineEnv) (modelChoices : StrOrList)
    (scenario outputDir p : String) (ts : List Int)
    (h : CEffect.writeCombined p ts
        ∈ (combineNetcdfFiles env modelChoices scenario outputDir).1) :
    isMonotone ts = true := by
  simp only [combineNetcdfFiles, List.mem_cons, List.mem_flatMap] at h
  rcases h with h | ⟨scen, hscen, h | ⟨model, hmodel, h⟩⟩
  · exact CEffect.noConfusion h
  · exact CEffect.noConfusion h
  · exact writeCombined_mem_combineOne_monotone env outputDir model scen p ts h

/-- Environment with two cropped files whose time values are unsorted. -/
def cenv8 : CombineEnv :=
  CombineEnv.mk [outDirOf ("out") ("GFDL-ESM4") ("historical")]
    [NcFile.mk (outDirOf ("out") ("GFDL-ESM4") ("historical")) ("a_cropped.nc") [3, 1, 2],
     NcFile.mk (outDirOf ("out") ("GFDL-ESM4") ("historical")) ("b_cropped.nc") [12, 10, 11]]
    []

/-- Witness for C8: unsorted inputs produce a written, monotonic time axis. -/
theorem C8_combined_time_axis_monotone_witness :
    CEffect.writeCombined ("out/combined/historical/GFDL-ESM4_combined.nc")
        [1, 2, 3, 10, 11, 12]
      ∈ (combineNetcdfFiles cenv8 (StrOrList.list ["GFDL-ESM4"]) ("historical") ("out")).1 ∧
    isMonotone [1, 2, 3, 10, 11, 12] = true :=
  ⟨by decide,
   C8_combined_time_axis_monotone cenv8 (StrOrList.list ["GFDL-ESM4"]) ("historical") ("out")
     ("out/combined/historical/GFDL-ESM4_combined.nc") [1, 2, 3, 10, 11, 12] (by decide)⟩

/-- C9 counterexample: the claim asserts an invalid model name raises a
ValidationError synchronously before any I/O.  Evaluating the standalone
combine entry point on the invalid model "XYZ" shows it raises nothing (the
exception component is `none`) and performs I/O (it creates the combined
output directory). -/
theorem C9_no_validation_counterexample :
    (combineNetcdfFiles cenv0 (StrOrList.list ["XYZ"]) ("historical") ("out")).2 = none ∧
    CEffect.mkdirP ("out/combined")
      ∈ (combineNetcdfFiles cenv0 (StrOrList.list ["XYZ"]) ("historical") ("out")).1 :=
  ⟨rfl, by decide⟩

/-- C9 amended: the standalone combine entry point performs no validation and
never raises — for every input, also invalid model or scenario names, the
exception component is `none` and the combined output directory is created
before any check. -/
theorem C9_amended_combine_never_raises (env : CombineEnv) (modelChoices : StrOrList)
    (scenario outputDir : String) :
    (combineNetcdfFiles env modelChoices scenario outputDir).2 = none ∧
    CEffect.mkdirP (outputDir ++ "/combined")
      ∈ (combineNetcdfFiles env modelChoices scenario outputDir).1 :=
  ⟨rfl, List.mem_cons_self _ _⟩

/-- C10: a model selector list containing "all" anywhere resolves to the full
5-model catalog, discarding every other entry before validation, so the model
validation passes and any validation error the orchestrator raises names a
variable or a scenario, never one of the discarded entries. -/
theorem C10_all_in_list_overrides (modelChoices : List String) (h : "all" ∈ modelChoices) :
    resolveModelsDownload modelChoices = validModelNames ∧
    validateModels (resolveModelsDownload modelChoices) = none ∧
    ∀ (env : Env) (vs : List String) (scenario : String) (bbox : Bool)
      (outputDir msg : String),
      (downloadIsimipData env modelChoices vs scenario bbox outputDir).2
          = some (PyError.validation msg) →
      ((∃ v, v ∈ vs ∧ v ∉ validVariables ∧ msg = invalidVariableMsg v) ∨
       (∃ s2, s2 ∈ resolveScenarios scenario ∧ s2 ∉ validScenarios ∧
          msg = invalidScenarioMsg s2)) := by
  have hres : resolveModelsDownload modelChoices = validModelNames := by
    unfold resolveModelsDownload
    rw [if_pos h]
  have hm : validateModels (resolveModelsDownload modelChoices) = none := by
    rw [hres]
    decide
  refine ⟨hres, hm, ?_⟩
  intro env vs scenario bbox outputDir msg hmsg
  cases hv : validateVariables vs with
  | some m2 =>
    obtain ⟨x, hx, hnx, hmx⟩ := validateAgainst_eq_some _ _ _ _ hv
    simp only [downloadIsimipData, hm, hv, Option.some.injEq, PyError.validation.injEq] at hmsg
    subst hmsg
    exact Or.inl ⟨x, hx, hnx, hmx⟩
  | none =>
    cases hs : validateScenarios (resolveScenarios scenario) with
    | some m2 =>
      obtain ⟨x, hx, hnx, hmx⟩ := validateAgainst_eq_some _ _ _ _ hs
      simp only [downloadIsimipData, hm, hv, hs, Option.some.injEq,
        PyError.validation.injEq] at hmsg
      subst hmsg
      exact Or.inr ⟨x, hx, hnx, hmx⟩
    | none =>
      simp [downloadIsimipData, hm, hv, hs] at hmsg

/-- Witness for C10: the invalid entry "XYZ" beside "all" is discarded and
model validation passes. -/
theorem C10_all_in_list_overrides_witness :
    resolveModelsDownload ["XYZ", "all"] = validModelNames ∧
    validateModels (resolveModelsDownload ["XYZ", "all"]) = none :=
  ⟨(C10_all_in_list_overrides ["XYZ", "all"] (by decide)).1,
   (C10_all_in_list_overrides ["XYZ", "all"] (by decide)).2.1⟩

end Isimip
